import Mathlib

/-!
Shallow embedding of the document-scraping pipeline
(`src/async-await/src/{main.py, scraper.py, data_cleaning.py, models.py}`).

Pure computation (record building, cleaning, merging, link resolution) is
translated directly into Lean functions.  Network- and service-dependent code
(`download_pdf`, `process_pdf`, the page walk) is modelled by parameterising
over the outcomes of the external calls (one outcome per attempt or per page)
and, where the claims concern ordering of persisted effects, by computing the
trace of file-system / service events the Python code performs.
-/

namespace GeminiPipeline

/-- Substring test, modelling Python's `needle in hay` on strings. -/
def containsSub (hay needle : String) : Bool :=
  hay.toList.tails.any (fun t => needle.toList.isPrefixOf t)

/-- Python's `str.strip()`: drop whitespace from both ends. -/
def pyStrip (s : String) : String :=
  String.mk
    (((s.toList.dropWhile Char.isWhitespace).reverse.dropWhile
        Char.isWhitespace).reverse)

/-- Python's `str.lower()`: lower-case every character. -/
def pyLower (s : String) : String :=
  String.mk (s.toList.map Char.toLower)

/-- Python's `str.startswith`. -/
def strStarts (s pre : String) : Bool :=
  pre.toList.isPrefixOf s.toList

/-- One element of the JSON array returned by the extraction service
(`raw_data` in `process_pdf`, scraper.py line 119).  Each field is `none` when
the key is absent from the JSON object (Python `item.get(key, "")` supplies
`""` then). -/
structure RawItem where
  source : Option String
  serial_number : Option String
  ministry : Option String
  decision_summary : Option String
deriving DecidableEq, Repr

/-- A processed decision record, as built by `process_pdf` (scraper.py lines
121-127) and described by `models.Decision`. -/
structure Decision where
  source : String
  serial_number : String
  ministry : String
  decision_summary : String
deriving DecidableEq, Repr

/-- The record-building loop of `process_pdf` (scraper.py lines 120-127):
`for i, item in enumerate(raw_data, start=1)` builds a dict from the locally
derived `source_id`, the serial `source_id_i`, and the response's `ministry`
and `decision_summary` fields (defaulting to `""`). -/
def build_go (source_id : String) : Nat → List RawItem → List Decision
  | _, [] => []
  | i, item :: rest =>
    { source := source_id
      serial_number := source_id ++ "_" ++ toString i
      ministry := item.ministry.getD ""
      decision_summary := item.decision_summary.getD "" }
      :: build_go source_id (i + 1) rest

/-- `processed_data` as computed by `process_pdf` from the service response
`raw_data` (enumeration starts at 1). -/
def build_processed_data (source_id : String) (raw_data : List RawItem) :
    List Decision :=
  build_go source_id 1 raw_data

/-- The loop of `clean_extracted_data` (data_cleaning.py lines 15-33), with
the `seen_serials` set threaded explicitly: a record with any empty required
field is dropped; `ministry` is stripped and lower-cased and
`decision_summary` stripped; a record whose `serial_number` was already seen
in the batch is dropped; survivors are kept in input order. -/
def clean_go : List Decision → List String → List Decision
  | [], _ => []
  | item :: rest, seen =>
    if item.source = "" ∨ item.serial_number = "" ∨ item.ministry = ""
        ∨ item.decision_summary = "" then
      clean_go rest seen
    else
      let cleaned : Decision :=
        { item with
          ministry := pyLower (pyStrip item.ministry)
          decision_summary := pyStrip item.decision_summary }
      if seen.contains item.serial_number then
        clean_go rest seen
      else
        cleaned :: clean_go rest (item.serial_number :: seen)

/-- `clean_extracted_data` (data_cleaning.py lines 4-36). -/
def clean_extracted_data (data : List Decision) : List Decision :=
  clean_go data []

/-- Modelled from the spec's words for the cleaning step (spec §4.5 and claim
C9): walk the raw records in arrival order with a 1-based position, assign
`serialNumber = sourceId ++ "_" ++ position`, drop a record with a missing or
empty required field, trim and case-fold the ministry field, trim the summary
field, drop a record whose serial number was already seen in the batch, and
keep survivors in input order.  Used only as the spec-side definition of the
refinement theorem for C9. -/
def spec_clean_go (source_id : String) : Nat → List String → List RawItem →
    List Decision
  | _, _, [] => []
  | i, seen, item :: rest =>
    let serial := source_id ++ "_" ++ toString i
    let ministry := item.ministry.getD ""
    let summary := item.decision_summary.getD ""
    if source_id = "" ∨ serial = "" ∨ ministry = "" ∨ summary = "" then
      spec_clean_go source_id (i + 1) seen rest
    else if seen.contains serial then
      spec_clean_go source_id (i + 1) seen rest
    else
      { source := source_id
        serial_number := serial
        ministry := pyLower (pyStrip ministry)
        decision_summary := pyStrip summary }
        :: spec_clean_go source_id (i + 1) (serial :: seen) rest

/-- The whole spec-described cleaning step applied to a service response. -/
def spec_clean_step (source_id : String) (raw_data : List RawItem) :
    List Decision :=
  spec_clean_go source_id 1 [] raw_data

/-- The merge performed at the end of `main` (main.py lines 129-138):
`existing_data.extend(all_decisions)` — a bare list concatenation, rewritten
to `all_decisions.json`. -/
def mergeDecisions (existing newRecs : List Decision) : List Decision :=
  existing ++ newRecs

/-! ### Fetcher: `download_pdf` (scraper.py lines 77-95)

One `FetchOut` per attempt models the outcome of `session.get` (and the file
write): a 200 response, a non-200 response, or a raised exception (caught by
the `except` clause). -/

/-- Outcome of one download attempt. -/
inductive FetchOut where
  | ok
  | httpErr (code : Nat)
  | exn
deriving DecidableEq, Repr

/-- The observable result of one `download_pdf` call: the returned value, the
backoff delays slept (in order), and the number of attempts made. -/
structure DlRun where
  result : Option String
  delays : List Nat
  attempts : Nat
deriving DecidableEq, Repr

/-- The retry loop of `download_pdf`: on success return the filename; on a
non-200 response or an exception, if further attempts remain, sleep
`min(2^attempt, 10)` and retry; after the last failed attempt return `None`
(no exception escapes). -/
def dl_go (out : Nat → FetchOut) (filename : String) : List Nat → DlRun
  | [] => ⟨none, [], 0⟩
  | a :: rest =>
    if out a = FetchOut.ok then
      ⟨some filename, [], 1⟩
    else if rest.isEmpty then
      ⟨none, [], 1⟩
    else
      let r := dl_go out filename rest
      ⟨r.result, min (2 ^ a) 10 :: r.delays, r.attempts + 1⟩

/-- `download_pdf` with `max_retries = 3`: attempts are indexed 0, 1, 2. -/
def download_pdf (out : Nat → FetchOut) (filename : String) : DlRun :=
  dl_go out filename [0, 1, 2]

/-! ### Extractor: `process_pdf` (scraper.py lines 98-139)

The claims about `process_pdf` concern the upload/delete discipline of the
server-side file handle.  Each attempt either succeeds (upload succeeded, the
model call returned `raw`), raises after the upload succeeded (`genRaise`:
`generate_content` / `json.loads` failed), or raises before `uploaded_file`
was (re)assigned (`uploadRaise`: `genai.Client()` or `files.upload` failed).
The Python variable `uploaded_file` is initialised to `None` once, *outside*
the retry loop, and is never reset; the `finally` block deletes whatever it
currently holds.  `st` threads that variable; handles are named by the index
of the attempt that uploaded them. -/

/-- Outcome of one `process_pdf` attempt. -/
inductive AttemptOut where
  | success (raw : List RawItem)
  | genRaise
  | uploadRaise
deriving Repr

/-- A server-side file-handle event: `upload h` creates handle `h`,
`delete h` releases it (`client.files.delete`). -/
inductive UpEv where
  | upload (h : Nat)
  | delete (h : Nat)
deriving DecidableEq, Repr

/-- The retry loop of `process_pdf`, returning the decisions it returns and
the upload/delete event trace it performs.  `st` is the current value of the
Python `uploaded_file` variable. -/
def pp_go (source_id : String) (out : Nat → AttemptOut) :
    List Nat → Option Nat → List Decision × List UpEv
  | [], _ => ([], [])
  | a :: rest, st =>
    match out a with
    | AttemptOut.success raw =>
      (build_processed_data source_id raw, [UpEv.upload a, UpEv.delete a])
    | AttemptOut.genRaise =>
      let r := pp_go source_id out rest (some a)
      (r.1, UpEv.upload a :: UpEv.delete a :: r.2)
    | AttemptOut.uploadRaise =>
      let stale : List UpEv :=
        match st with
        | some h => [UpEv.delete h]
        | none => []
      let r := pp_go source_id out rest st
      (r.1, stale ++ r.2)

/-- `process_pdf` with `max_retries = 3` and `uploaded_file = None` at entry. -/
def process_pdf (source_id : String) (out : Nat → AttemptOut) :
    List Decision × List UpEv :=
  pp_go source_id out [0, 1, 2] none

/-- The claim's resource discipline: every handle uploaded during the call is
deleted exactly once over the whole trace. -/
def handlesReleasedOnce (tr : List UpEv) : Prop :=
  ∀ h, UpEv.upload h ∈ tr → tr.count (UpEv.delete h) = 1

/-! ### Page walk: `get_content_urls_from_page` (scraper.py lines 20-34) and
`scrape_all_pages` (main.py lines 46-64)

A page fetch either returns a response with a status and the parsed
`grid__card` blocks (each card's first `<a href>`, when present), or raises a
transport exception, which propagates out of `scrape_all_pages` and aborts the
run (`Except.error`). -/

/-- The outcome of fetching one listing page. -/
inductive PageResp where
  | ok (status : Nat) (cards : List (Option String))
  | raised
deriving Repr

/-- URL completion for listing-card links (scraper.py line 32). -/
def mkContentUrl (href : String) : String :=
  if strStarts href "http" then href else "https://mocit.gov.np" ++ href

/-- `get_content_urls_from_page`: on a non-200 status return `[]`; otherwise
keep each card link whose stripped href contains `/content/`, completed to a
full URL; a transport error propagates. -/
def get_content_urls_from_page (resp : PageResp) : Except Unit (List String) :=
  match resp with
  | PageResp.raised => Except.error ()
  | PageResp.ok status cards =>
    Except.ok
      (if status ≠ 200 then []
       else
         cards.filterMap fun c =>
           match c with
           | some href0 =>
             let href := pyStrip href0
             if containsSub href "/content/" then some (mkContentUrl href)
             else none
           | none => none)

/-- The per-page item loop of `scrape_all_pages` (main.py lines 55-59):
`source_id = "page<p>_item<idx+1>"`, resolve the content URL to pdf urls, and
keep the entry only when some pdf url was found. -/
def pageItems (p : Nat) (urls : List String) (resolve : String → List String) :
    List (String × List String) :=
  urls.enum.filterMap fun e =>
    let sid := "page" ++ toString p ++ "_item" ++ toString (e.1 + 1)
    let pdfs := resolve e.2
    if pdfs.isEmpty then none else some (sid, pdfs)

/-- The `while True` walk of `scrape_all_pages`, with explicit fuel (`none`
means the fuel ran out before the walk ended).  On an empty url list the walk
stops and `save_progress(page_num - 1)` records `p - 1`; on a transport error
the run aborts with nothing saved. -/
def scrape_go (pages : Nat → PageResp) (resolve : String → List String) :
    Nat → Nat → List (String × List String) →
    Option (Except Unit (List (String × List String) × Nat))
  | 0, _, _ => none
  | fuel + 1, p, acc =>
    match get_content_urls_from_page (pages p) with
    | Except.error _ => some (Except.error ())
    | Except.ok urls =>
      if urls.isEmpty then some (Except.ok (acc, p - 1))
      else scrape_go pages resolve fuel (p + 1) (acc ++ pageItems p urls resolve)

/-- `scrape_all_pages`, returning on success the collected
`all_pdf_data` and the value written to `progress.txt`. -/
def scrape_all_pages (pages : Nat → PageResp) (resolve : String → List String)
    (fuel start_page : Nat) :
    Option (Except Unit (List (String × List String) × Nat)) :=
  scrape_go pages resolve fuel start_page []

/-! ### Link Resolver: `get_pdf_urls_from_content` (scraper.py lines 37-74)

A parsed detail page: `moreContainer` is `none` when no
`div.more-container` exists, `some none` when the container exists but holds
no `<a title="Download PDF File" href>` link, and `some (some href)` when that
link was found; `anchors` are all `<a href>` values; `scriptPdfVars` gives,
per `<script>`, the URL captured by the `var pdf = '...pdf';` regex, if any.
Since the Python function accumulates a `set` and returns `list(set)` (order
unspecified), the result is modelled as a `Finset`. -/

/-- A parsed content/detail page. -/
structure ContentPage where
  moreContainer : Option (Option String)
  anchors : List String
  scriptPdfVars : List (Option String)
deriving Repr

/-- URL completion for pdf links (scraper.py lines 52, 61, 70). -/
def mkFullUrl (href : String) : String :=
  if strStarts href "http" then href else "https://mocit.gov.np" ++ href

/-- Tier 1: the flipbook download link inside `div.more-container`, kept when
its stripped href contains `.pdf` (scraper.py lines 47-55). -/
def tier1 (p : ContentPage) : Finset String :=
  match p.moreContainer with
  | some (some href0) =>
    let href := pyStrip href0
    if containsSub href ".pdf" then {mkFullUrl href} else ∅
  | _ => ∅

/-- Tier 2: every `<a href>` whose stripped href contains `.pdf` and whose
lower-cased href contains `download` (scraper.py lines 58-62). -/
def tier2 (p : ContentPage) : Finset String :=
  (p.anchors.filterMap fun a =>
      let href := pyStrip a
      if containsSub href ".pdf" && containsSub (pyLower href) "download" then
        some (mkFullUrl href)
      else none).toFinset

/-- Tier 3: every script whose content matches the `var pdf = '...';` regex
(scraper.py lines 65-71). -/
def tier3 (p : ContentPage) : Finset String :=
  (p.scriptPdfVars.filterMap fun s => s.map mkFullUrl).toFinset

/-- `get_pdf_urls_from_content`: `[]` on a non-200 status; an immediate
return of the tier-1 singleton when the flipbook link qualifies; otherwise the
union of the tier-2 and tier-3 matches (both loops always run). -/
def get_pdf_urls_from_content (status : Nat) (p : ContentPage) : Finset String :=
  if status ≠ 200 then ∅
  else if tier1 p ≠ ∅ then tier1 p
  else tier2 p ∪ tier3 p

/-! ### Fetch phase: `download_all_pdfs` (main.py lines 67-89)

`tasks` is built by skipping every `source_id` already in `processed_pdfs`
and scheduling one download per pdf url of the surviving entries; the
results are then paired with `all_pdf_data[i]` where `i` indexes *results* —
the misalignment is part of the source and is embedded as written.
`download_pdf` never raises (it returns `None` on permanent failure), so the
`isinstance(result, Exception)` filter keeps every result, `None` included.
`all_pdf_data[i]` out of range raises `IndexError` and kills the run,
modelled as `none`. -/

/-- The task-building loop (main.py lines 71-79): each task is
`(pdf_url, "temp_<source_id>.pdf")`. -/
def buildTasks : List (String × List String) → List String →
    List (String × String)
  | [], _ => []
  | (sid, urls) :: rest, processed =>
    if processed.contains sid then buildTasks rest processed
    else
      urls.map (fun u => (u, "temp_" ++ sid ++ ".pdf"))
        ++ buildTasks rest processed

/-- The result-pairing loop (main.py lines 83-87): result `i` is attributed
to `all_pdf_data[i]`. -/
def pairResults (all_pdf_data : List (String × List String)) :
    Nat → List (Option String) → Option (List (String × Option String))
  | _, [] => some []
  | i, r :: rest =>
    match all_pdf_data.get? i with
    | none => none
    | some data =>
      (pairResults all_pdf_data (i + 1) rest).map fun l => (data.1, r) :: l

/-- `download_all_pdfs`: the `downloaded_files` list of
`(source_id, filename)` pairs handed to phase 3, where `download u` is the
value `download_pdf` returned for url `u`. -/
def download_all_pdfs (download : String → Option String)
    (all_pdf_data : List (String × List String)) (processed : List String) :
    Option (List (String × Option String)) :=
  pairResults all_pdf_data 0
    ((buildTasks all_pdf_data processed).map fun t => download t.1)

/-! ### Extract-and-merge phase: `process_all_pdfs` (main.py lines 92-102)
and the final save in `main` (main.py lines 129-140)

The claims here are about the order of the persisted effects, so the phase is
embedded as the trace of file events it performs. -/

/-- A persisted file-system event of the run: an append of a `source_id` to
`processed_pdfs.txt` (`save_processed_pdf`), the deletion of a temp pdf
(`os.remove`), or the rewrite of `all_decisions.json`. -/
inductive Ev where
  | appendProcessed (sid : String)
  | removeFile (name : String)
  | writeDecisions (recs : List Decision)
deriving DecidableEq, Repr

/-- `process_all_pdfs`: for each `(source_id, filename)` in order, extract
the decisions (`extract filename source_id` models the value returned by
`process_pdf`), extend the in-memory `all_decisions`, append the id to
`processed_pdfs.txt`, and delete the temp file.  Returns the accumulated
decisions and the event trace. -/
def process_all_pdfs (extract : String → String → List Decision) :
    List (String × String) → List Decision × List Ev
  | [] => ([], [])
  | f :: rest =>
    let ds := extract f.2 f.1
    let r := process_all_pdfs extract rest
    (ds ++ r.1, Ev.appendProcessed f.1 :: Ev.removeFile f.2 :: r.2)

/-- The trace of persisted events of phase 3 plus the final save step of
`main`: `all_decisions.json` is loaded, extended and rewritten once, at the
very end, and only when some decision was extracted. -/
def mainRunTrace (extract : String → String → List Decision)
    (downloaded_files : List (String × String)) (existing : List Decision) :
    List Ev :=
  let r := process_all_pdfs extract downloaded_files
  r.2 ++ (if r.1.isEmpty then []
          else [Ev.writeDecisions (mergeDecisions existing r.1)])

/-- Claim C1's ordering invariant on a trace (weakened to a necessary
condition: *some* durable write of the output store precedes the checkpoint
append — the full claim also constrains the written contents). -/
def checkpointAfterMerge (tr : List Ev) : Prop :=
  ∀ i sid, tr.get? i = some (Ev.appendProcessed sid) →
    ∃ j recs, j < i ∧ tr.get? j = some (Ev.writeDecisions recs)

/-- Claim C3's termination rule, as a property of a walk: whenever the walk
finishes normally (saving `saved = p - 1` after stopping at page `p`), the
fetch of the stopping page succeeded with status 200 (so only a succeeding
empty page ends the listing). -/
def walkEndsOnlyOnSuccess (pages : Nat → PageResp)
    (resolve : String → List String) (fuel start_page : Nat) : Prop :=
  ∀ acc saved,
    scrape_all_pages pages resolve fuel start_page
      = some (Except.ok (acc, saved)) →
    ∃ cards, pages (saved + 1) = PageResp.ok 200 cards

/-! ### Concrete inputs used by the individual claims -/

/-- A listing whose every page fetch fails with HTTP 500 while still listing
an item block (used by C3). -/
def pagesC3 : Nat → PageResp := fun _ => PageResp.ok 500 [some "/content/x/"]

/-- An extraction outcome yielding one decision per document (used as the
failing input of C1). -/
def extractC1 : String → String → List Decision := fun _ sid =>
  [⟨sid, sid ++ "_1", "mohfw", "approved budget"⟩]

/-- `process_pdf` attempt outcomes: attempt 0 uploads and then raises during
generation; attempts 1 and 2 raise during upload (used by C7). -/
def outC7 : Nat → AttemptOut := fun a =>
  if a = 0 then AttemptOut.genRaise else AttemptOut.uploadRaise

/-- A record already present in the output store (used by C4). -/
def recC4 : Decision := ⟨"page1_item1", "page1_item1_1", "a", "x"⟩

/-- A detail page with no flipbook link, one tier-2 anchor and one tier-3
script match (used by C8). -/
def pageC8 : ContentPage := ⟨none, ["/download/a.pdf"], [some "/b.pdf"]⟩

/-- Discovery output with two items, the first of which is already in the
completed set (used by C5). -/
def apdC5 : List (String × List String) :=
  [("page1_item1", ["u1"]), ("page1_item2", ["u2"])]

/-- Download outcomes for C6's witness: two failures then a success. -/
def outC6 : Nat → FetchOut := fun k => if k < 2 then FetchOut.exn else FetchOut.ok

/-- A raw service response carrying bogus `source` / `serial_number` values
(used by C10's witness). -/
def rawA : RawItem :=
  ⟨some "bogus_src", some "bogus_serial", some "Ministry of X", some "Summary"⟩

/-- The same response with the `source` / `serial_number` fields absent
(used by C10's witness). -/
def rawB : RawItem := ⟨none, none, some "Ministry of X", some "Summary"⟩

/-! ### Claims -/

/-- C1: the claim says a `sourceId` is appended to `processed_pdfs.txt` only
after its records have been durably merged into `all_decisions.json`.  The
code violates this: in `process_all_pdfs` the checkpoint append happens per
item during phase 3, while the single durable write of `all_decisions.json`
happens at the end of `main`.  Evaluated at a run of one item whose
extraction yields one record: the trace appends the id first and writes the
store last, so no `writeDecisions` event precedes the `appendProcessed`
event. -/
theorem C1_checkpoint_before_durable_merge :
    mainRunTrace extractC1 [("page1_item1", "temp_page1_item1.pdf")] []
      = [Ev.appendProcessed "page1_item1",
         Ev.removeFile "temp_page1_item1.pdf",
         Ev.writeDecisions [⟨"page1_item1", "page1_item1_1", "mohfw",
                             "approved budget"⟩]]
    ∧ ¬ checkpointAfterMerge
        (mainRunTrace extractC1 [("page1_item1", "temp_page1_item1.pdf")] []) := by
  refine ⟨rfl, ?_⟩
  intro hcp
  obtain ⟨j, recs, hj, _⟩ := hcp 0 "page1_item1" rfl
  exact Nat.not_lt_zero j hj

/-- C2: the claim says the persisted `lastCompletedPage` never decreases, for
every sequence of page-fetch outcomes, including a first page with no items.
The code writes `page_num - 1` after the walk; when the very first page
fetched (page 5, the previously persisted cursor) yields no items, it writes
4, strictly below the previous value 5. -/
theorem C2_page_cursor_decreases_on_empty_first_page :
    scrape_all_pages (fun _ => PageResp.ok 200 []) (fun _ => []) 1 5
      = some (Except.ok ([], 4))
    ∧ 4 < 5 := ⟨rfl, by decide⟩

/-- C4 counterexample: merging a record whose `serial_number` is already in
the store is claimed to leave the store unchanged; the code's merge is a bare
append, so the store gains a duplicate entry. -/
theorem C4_merge_not_idempotent :
    recC4.serial_number ∈ [recC4].map Decision.serial_number
    ∧ mergeDecisions [recC4] [recC4] ≠ [recC4] := by
  refine ⟨by decide, ?_⟩
  intro h
  simpa [mergeDecisions] using congrArg List.length h

/-- C5: the claim says an id in the loaded completed set is skipped in the
fetch phase and therefore absent from the extract phase.  The skip does
happen (only `u2` is scheduled), but the result-pairing loop indexes
`all_pdf_data` by the position in `results`, so the surviving download is
attributed to the *skipped* id `page1_item1`, which therefore re-enters the
extract phase bound to the other item's file. -/
theorem C5_completed_id_reenters_extract_phase :
    buildTasks apdC5 ["page1_item1"] = [("u2", "temp_page1_item2.pdf")]
    ∧ download_all_pdfs (fun _ => some "temp_page1_item2.pdf") apdC5
        ["page1_item1"]
      = some [("page1_item1", some "temp_page1_item2.pdf")]
    ∧ ((download_all_pdfs (fun _ => some "temp_page1_item2.pdf") apdC5
          ["page1_item1"]).getD []).map Prod.fst = ["page1_item1"] :=
  ⟨rfl, rfl, rfl⟩

/-- C7: the claim says every server-side handle created during a
`process_pdf` call is released exactly once.  The Python `uploaded_file`
variable is never reset after a release, so when attempt 0 uploads handle 0
and later raises, the failed uploads of attempts 1 and 2 each re-delete
handle 0 in their `finally` blocks: handle 0 is released three times. -/
theorem C7_stale_handle_released_thrice :
    (process_pdf "page1_item1" outC7).2
      = [UpEv.upload 0, UpEv.delete 0, UpEv.delete 0, UpEv.delete 0]
    ∧ ¬ handlesReleasedOnce (process_pdf "page1_item1" outC7).2 := by
  refine ⟨rfl, ?_⟩
  intro hp
  have h0 := hp 0 (by decide)
  exact absurd h0 (by decide)

/-- C8 counterexample: the claim says a non-empty tier-2 match set causes
tier 3 to be skipped.  On a page with one qualifying tier-2 anchor and one
tier-3 script match, the result still contains the tier-3 URL, which is not a
tier-2 match. -/
theorem C8_tier3_not_skipped :
    (tier2 pageC8).Nonempty
    ∧ "https://mocit.gov.np/b.pdf" ∈ get_pdf_urls_from_content 200 pageC8
    ∧ "https://mocit.gov.np/b.pdf" ∉ tier2 pageC8 := by
  refine ⟨?_, ?_, ?_⟩ <;> decide

/-- C8 (amended): tier 1, when non-empty, short-circuits tiers 2 and 3; when
tier 1 is empty, tiers 2 and 3 are *both* evaluated and their union is
returned (tier 3 is not skipped when tier 2 is non-empty); a non-200 status
yields the empty set. -/
theorem C8_amended_tiering :
    ∀ (status : Nat) (p : ContentPage),
      (status ≠ 200 → get_pdf_urls_from_content status p = ∅)
      ∧ (tier1 p ≠ ∅ → get_pdf_urls_from_content 200 p = tier1 p)
      ∧ (tier1 p = ∅ → get_pdf_urls_from_content 200 p = tier2 p ∪ tier3 p) := by
  intro status p
  refine ⟨?_, ?_, ?_⟩
  · intro h; simp [get_pdf_urls_from_content, h]
  · intro h; simp [get_pdf_urls_from_content, h]
  · intro h; simp [get_pdf_urls_from_content, h]

/-- C8 witness: on `pageC8` tier 1 is empty and the result is the union of
the tier-2 and tier-3 match sets. -/
theorem C8_amended_witness :
    get_pdf_urls_from_content 200 pageC8 = tier2 pageC8 ∪ tier3 pageC8 :=
  (C8_amended_tiering 200 pageC8).2.2 rfl

/-- C3 counterexample: the claim says the walk ends only when a page fetch
succeeds (status 200) with no items, a failed fetch being retried and, after
retries, aborting the run.  Against a listing whose first page fetch returns
HTTP 500 while listing an item, the walk ends normally at that very page, so
the termination-only-on-success property is false. -/
theorem C3_failed_fetch_ends_walk :
    ¬ walkEndsOnlyOnSuccess pagesC3 (fun _ => ["p.pdf"]) 1 1 := by
  intro h
  obtain ⟨cards, hc⟩ := h [] 0 rfl
  injection hc with h1 _
  exact absurd h1 (by decide)

/-- C3 (amended): a page fetch returning a non-200 status yields an empty
item set and is treated exactly like end-of-listing — the walk ends there
with no retry and `progress.txt` receives `start_page - 1` — while a
transport error aborts the whole run (also without retries). -/
theorem C3_amended_nonsuccess_treated_as_end :
    ∀ (pages : Nat → PageResp) (resolve : String → List String)
      (fuel start_page : Nat),
      (∀ status cards,
          pages start_page = PageResp.ok status cards → status ≠ 200 →
          scrape_all_pages pages resolve (fuel + 1) start_page
            = some (Except.ok ([], start_page - 1)))
      ∧ (pages start_page = PageResp.raised →
          scrape_all_pages pages resolve (fuel + 1) start_page
            = some (Except.error ())) := by
  intro pages resolve fuel start_page
  constructor
  · intro status cards hp hs
    simp [scrape_all_pages, scrape_go, get_content_urls_from_page, hp, hs]
  · intro hp
    simp [scrape_all_pages, scrape_go, get_content_urls_from_page, hp]

/-- C3 witness: the amended behaviour at the concrete failing listing — the
walk ends at the HTTP-500 page and saves `1 - 1 = 0`. -/
theorem C3_amended_witness :
    scrape_all_pages pagesC3 (fun _ => ["p.pdf"]) 1 1
      = some (Except.ok ([], 0)) :=
  (C3_amended_nonsuccess_treated_as_end pagesC3 (fun _ => ["p.pdf"]) 0 1).1
    500 [some "/content/x/"] rfl (by decide)

/-- C4 (amended): the merge is a bare append, so merging a Record whose
`serialNumber` is already present appends a duplicate entry and never leaves
the store unchanged. -/
theorem C4_amended_merge_appends_duplicate :
    ∀ (store : List Decision) (r : Decision),
      r.serial_number ∈ store.map Decision.serial_number →
      mergeDecisions store [r] = store ++ [r]
        ∧ mergeDecisions store [r] ≠ store := by
  intro store r _hmem
  refine ⟨rfl, ?_⟩
  intro h
  have hl := congrArg List.length h
  simp [mergeDecisions] at hl

/-- C4 witness: merging `recC4` into a store already holding its serial
number appends a duplicate. -/
theorem C4_amended_witness :
    mergeDecisions [recC4] [recC4] = [recC4] ++ [recC4]
    ∧ mergeDecisions [recC4] [recC4] ≠ [recC4] :=
  C4_amended_merge_appends_duplicate [recC4] recC4 (by decide)

/-- Evaluation of `download_pdf` when the first attempt succeeds. -/
lemma dl_eval_ok0 (out : Nat → FetchOut) (fn : String)
    (h0 : out 0 = FetchOut.ok) :
    download_pdf out fn = ⟨some fn, [], 1⟩ := by
  simp [download_pdf, dl_go, h0]

/-- Evaluation of `download_pdf` when only the second attempt succeeds. -/
lemma dl_eval_ok1 (out : Nat → FetchOut) (fn : String)
    (h0 : out 0 ≠ FetchOut.ok) (h1 : out 1 = FetchOut.ok) :
    download_pdf out fn = ⟨some fn, [1], 2⟩ := by
  simp [download_pdf, dl_go, h0, h1]

/-- Evaluation of `download_pdf` when only the third attempt succeeds. -/
lemma dl_eval_ok2 (out : Nat → FetchOut) (fn : String)
    (h0 : out 0 ≠ FetchOut.ok) (h1 : out 1 ≠ FetchOut.ok)
    (h2 : out 2 = FetchOut.ok) :
    download_pdf out fn = ⟨some fn, [1, 2], 3⟩ := by
  simp [download_pdf, dl_go, h0, h1, h2]

/-- Evaluation of `download_pdf` when every attempt fails. -/
lemma dl_eval_fail (out : Nat → FetchOut) (fn : String)
    (h0 : out 0 ≠ FetchOut.ok) (h1 : out 1 ≠ FetchOut.ok)
    (h2 : out 2 ≠ FetchOut.ok) :
    download_pdf out fn = ⟨none, [1, 2], 3⟩ := by
  simp [download_pdf, dl_go, h0, h1, h2]

/-- C6: `download_pdf` makes at most 3 attempts; the delays slept are exactly
`min(2^k, 10)` for the failed attempts `k` before the last attempt made (so
1 and 2 units before the 2nd and 3rd attempts); when every attempt fails it
returns `None` (never raising) after 3 attempts with delays 1, 2; when
attempt `k` is the first to succeed it returns the destination filename after
`k + 1` attempts. -/
theorem C6_download_retry_contract :
    ∀ (out : Nat → FetchOut) (fn : String),
      (download_pdf out fn).attempts ≤ 3
      ∧ (download_pdf out fn).delays
          = (List.range ((download_pdf out fn).attempts - 1)).map
              (fun k => min (2 ^ k) 10)
      ∧ ((download_pdf out fn).result = none
          ∨ (download_pdf out fn).result = some fn)
      ∧ ((∀ k, k < 3 → out k ≠ FetchOut.ok) →
          (download_pdf out fn).result = none
            ∧ (download_pdf out fn).attempts = 3
            ∧ (download_pdf out fn).delays = [1, 2])
      ∧ (∀ k, k < 3 → out k = FetchOut.ok →
          (∀ j, j < k → out j ≠ FetchOut.ok) →
          (download_pdf out fn).result = some fn
            ∧ (download_pdf out fn).attempts = k + 1) := by
  intro out fn
  by_cases h0 : out 0 = FetchOut.ok
  · rw [dl_eval_ok0 out fn h0]
    refine ⟨by simp, rfl, Or.inr rfl, ?_, ?_⟩
    · intro H; exact absurd h0 (H 0 (by decide))
    · intro k hk hok hmin
      match k with
      | 0 => exact ⟨rfl, rfl⟩
      | j + 1 => exact absurd h0 (hmin 0 (Nat.succ_pos j))
  · by_cases h1 : out 1 = FetchOut.ok
    · rw [dl_eval_ok1 out fn h0 h1]
      refine ⟨by simp, rfl, Or.inr rfl, ?_, ?_⟩
      · intro H; exact absurd h1 (H 1 (by decide))
      · intro k hk hok hmin
        match k with
        | 0 => exact absurd hok h0
        | 1 => exact ⟨rfl, rfl⟩
        | j + 2 => exact absurd h1 (hmin 1 (by omega))
    · by_cases h2 : out 2 = FetchOut.ok
      · rw [dl_eval_ok2 out fn h0 h1 h2]
        refine ⟨by simp, rfl, Or.inr rfl, ?_, ?_⟩
        · intro H; exact absurd h2 (H 2 (by decide))
        · intro k hk hok hmin
          match k with
          | 0 => exact absurd hok h0
          | 1 => exact absurd hok h1
          | 2 => exact ⟨rfl, rfl⟩
          | j + 3 => exact absurd hk (by omega)
      · rw [dl_eval_fail out fn h0 h1 h2]
        refine ⟨by simp, rfl, Or.inl rfl, ?_, ?_⟩
        · intro _; exact ⟨rfl, rfl, rfl⟩
        · intro k hk hok hmin
          match k with
          | 0 => exact absurd hok h0
          | 1 => exact absurd hok h1
          | 2 => exact absurd hok h2
          | j + 3 => exact absurd hk (by omega)

/-- C6 witness: two failures then a success — the filename is returned after
3 attempts with recorded delays 1 and 2. -/
theorem C6_download_retry_witness :
    (download_pdf outC6 "f.pdf").result = some "f.pdf"
    ∧ (download_pdf outC6 "f.pdf").attempts = 3
    ∧ (download_pdf outC6 "f.pdf").delays = [1, 2] := by
  have h := C6_download_retry_contract outC6 "f.pdf"
  have h5 := h.2.2.2.2 2 (by decide) (by decide) (by decide)
  have hd := h.2.1
  rw [h5.2] at hd
  exact ⟨h5.1, h5.2, hd.trans (by decide)⟩

/-- The spec-side cleaning step agrees with the composite of `process_pdf`'s
record building followed by `clean_extracted_data`, at every start index and
seen-set. -/
lemma spec_clean_eq_clean_go :
    ∀ (raw : List RawItem) (sid : String) (i : Nat) (seen : List String),
      spec_clean_go sid i seen raw = clean_go (build_go sid i raw) seen := by
  intro raw
  induction raw with
  | nil => intro sid i seen; rfl
  | cons item rest ih =>
    intro sid i seen
    simp only [spec_clean_go, build_go, clean_go]
    by_cases h1 : sid = "" ∨ sid ++ "_" ++ toString i = ""
        ∨ item.ministry.getD "" = "" ∨ item.decision_summary.getD "" = ""
    · simp [h1, ih]
    · by_cases h2 : seen.contains (sid ++ "_" ++ toString i)
      · simp [h1, h2, ih]
      · simp [h1, h2, ih]

/-- C9: the cleaning step — `serialNumber = sourceId_"position"` assignment
in arrival order, dropping records with a missing or empty required field,
stripping and case-folding the ministry field, stripping (only) the summary,
dropping in-batch duplicate serial numbers, survivors in input order — is
exactly what the code computes; and the spec's concrete scenario holds:
`[{category: " A ", summary: " x "}]` for `page1_item1` cleans to
`[{sourceId: page1_item1, serialNumber: page1_item1_1, category: "a",
summary: "x"}]`. -/
theorem C9_cleaning_step_matches_claim :
    (∀ (sid : String) (raw : List RawItem),
        spec_clean_step sid raw
          = clean_extracted_data (build_processed_data sid raw))
    ∧ clean_extracted_data (build_processed_data "page1_item1"
          [⟨none, none, some " A ", some " x "⟩])
        = [⟨"page1_item1", "page1_item1_1", "a", "x"⟩] := by
  constructor
  · intro sid raw
    exact spec_clean_eq_clean_go raw sid 1 []
  · decide

/-- `build_go` only reads the `ministry` and `decision_summary` projections
of the raw items. -/
lemma build_go_proj_congr (sid : String) :
    ∀ (raw1 raw2 : List RawItem) (i : Nat),
      raw1.map (fun r => (r.ministry, r.decision_summary))
        = raw2.map (fun r => (r.ministry, r.decision_summary)) →
      build_go sid i raw1 = build_go sid i raw2 := by
  intro raw1
  induction raw1 with
  | nil =>
    intro raw2 i h
    cases raw2 with
    | nil => rfl
    | cons b t => simp at h
  | cons a t ih =>
    intro raw2 i h
    cases raw2 with
    | nil => simp at h
    | cons b t2 =>
      simp only [List.map_cons, List.cons.injEq, Prod.mk.injEq] at h
      obtain ⟨⟨hm, hs⟩, ht⟩ := h
      simp [build_go, hm, hs, ih t2 (i + 1) ht]

/-- C10: the processed records built from a service response depend only on
the `sourceId` and the list of `(ministry, decision_summary)` projections of
the response — any `source` / `serial_number` values in the response are
discarded, so two responses agreeing on those projections yield identical
output. -/
theorem C10_records_ignore_reported_ids :
    ∀ (sid : String) (raw1 raw2 : List RawItem),
      raw1.map (fun r => (r.ministry, r.decision_summary))
        = raw2.map (fun r => (r.ministry, r.decision_summary)) →
      build_processed_data sid raw1 = build_processed_data sid raw2 := by
  intro sid raw1 raw2 h
  exact build_go_proj_congr sid raw1 raw2 1 h

/-- C10 witness: a response with bogus `source` / `serial_number` values and
one with those fields absent produce identical processed records. -/
theorem C10_records_ignore_reported_ids_witness :
    [rawA].map (fun r => (r.ministry, r.decision_summary))
      = [rawB].map (fun r => (r.ministry, r.decision_summary))
    ∧ build_processed_data "page1_item1" [rawA]
      = build_processed_data "page1_item1" [rawB] := by
  have h : [rawA].map (fun r => (r.ministry, r.decision_summary))
      = [rawB].map (fun r => (r.ministry, r.decision_summary)) := by decide
  exact ⟨h, C10_records_ignore_reported_ids "page1_item1" [rawA] [rawB] h⟩

end GeminiPipeline
